import Mathlib

/-
Verification of the vertical-autocrop reframing pipeline (src/processor.py).

The pure decision and geometry functions are embedded directly; machine
arithmetic notes are given where Python floating point is involved.  The
constant ASPECT_RATIO = 9 / 16 = 0.5625 is exactly representable in binary
floating point, so every float product and comparison the source performs
with it is exact and is embedded as exact integer arithmetic (cross
multiplied by 16 where a comparison is made).
-/

namespace Autocrop

/-- Axis-aligned bounding box [x1, y1, x2, y2] in source-frame pixel
coordinates, as produced by the detector loop in analyze_scene_content. -/
structure Box where
  x1 : Int
  y1 : Int
  x2 : Int
  y2 : Int
deriving Repr, DecidableEq

/-- One detected person: the dict {person_box, face_box} appended at
processor.py line 53.  face_box is None or a four-element box, hence an
Option here; a present box is a non-empty list and therefore truthy. -/
structure Subject where
  person_box : Box
  face_box : Option Box
deriving Repr, DecidableEq

/-- The two cropping strategies, the string constants of processor.py. -/
inductive Strategy where
  | TRACK
  | LETTERBOX
deriving Repr, DecidableEq

/-- get_enclosing_box (processor.py lines 72-79): component-wise min of
x1, y1 and max of x2, y2 over the boxes; None for the empty list. -/
def get_enclosing_box : List Box → Option Box
  | [] => none
  | b :: bs =>
      some ⟨bs.foldl (fun m c => min m c.x1) b.x1,
            bs.foldl (fun m c => min m c.y1) b.y1,
            bs.foldl (fun m c => max m c.x2) b.x2,
            bs.foldl (fun m c => max m c.y2) b.y2⟩

/-- decide_cropping_strategy (processor.py lines 82-96).

Zero subjects give LETTERBOX; one subject gives TRACK targeting
face_box or person_box (the Python expression uses the operator or,
which picks face_box exactly when it is not None, since a present box
is a non-empty list).  For two or more subjects the enclosing box of
all person boxes is compared against max_width_for_crop =
frame_height * 0.5625; since 0.5625 = 9/16 is an exact binary float
the comparison group_width < frame_height * 0.5625 is exactly the
integer comparison 16 * group_width < 9 * frame_height. -/
def decide_cropping_strategy (scene_analysis : List Subject)
    (frame_height : Int) : Strategy × Option Box :=
  match scene_analysis with
  | [] => (Strategy.LETTERBOX, none)
  | [s] => (Strategy.TRACK, some (s.face_box.getD s.person_box))
  | s1 :: s2 :: rest =>
      match get_enclosing_box ((s1 :: s2 :: rest).map Subject.person_box) with
      | none => (Strategy.LETTERBOX, none)  -- unreachable: at least two boxes
      | some group_box =>
          let group_width := group_box.x2 - group_box.x1
          if 16 * group_width < 9 * frame_height then
            (Strategy.TRACK, some group_box)
          else
            (Strategy.LETTERBOX, none)

/-- calculate_crop_box (processor.py lines 99-113).

target_center_x = (x1 + x2) / 2 is an exact half-integer float, and
crop_width / 2 is an exact half-integer as well, so the arguments of
the two int() casts are exact half-integers; the Python int() cast
truncates toward zero, which on a half-integer n / 2 is Int.tdiv n 2.
crop_width = int(frame_height * 0.5625) is Int.tdiv (9 * frame_height) 16.
The two sequential clamping if statements of the source are rendered by
shadowing, the second one testing the value produced by the first. -/
def calculate_crop_box (target_box : Box) (frame_width frame_height : Int) :
    Int × Int × Int × Int :=
  let center2 := target_box.x1 + target_box.x2  -- 2 * target_center_x
  let crop_width := Int.tdiv (9 * frame_height) 16
  let x1 := Int.tdiv (center2 - crop_width) 2
  let x2 := Int.tdiv (center2 + crop_width) 2
  let x1a := if x1 < 0 then 0 else x1
  let x2a := if x1 < 0 then crop_width else x2
  let x2b := if x2a > frame_width then frame_width else x2a
  let x1b := if x2a > frame_width then frame_width - crop_width else x1a
  (x1b, 0, x2b, frame_height)

/-- The local crop_width of calculate_crop_box:
int(frame_height * 0.5625) = Int.tdiv (9 * frame_height) 16. -/
def crop_width (frame_height : Int) : Int := Int.tdiv (9 * frame_height) 16

/-- analyze_scene_content (processor.py lines 19-56), abstracted over the
external world: cap_opened models cap.isOpened(), read_ok models the ret
flag of cap.read(), and detections is the subject list that the external
detector loop (lines 38-53) builds from the decoded frame.  The two
failure branches (lines 22-23 and 31-33) return the empty list. -/
def analyze_scene_content (cap_opened read_ok : Bool)
    (detections : List Subject) : List Subject :=
  if ¬ cap_opened then []
  else if ¬ read_ok then []
  else detections

/-- A scene as stored in scenes_analysis (processor.py lines 177-183):
a half-open frame-index interval. -/
structure Scene where
  start_frame : Nat
  end_frame : Nat
deriving Repr, DecidableEq

/-- start_frame of scene i, with the out-of-range default that the Lean
embedding needs (the source never reads out of range). -/
def scene_start (scenes : List Scene) (i : Nat) : Nat :=
  (scenes.getD i ⟨0, 0⟩).start_frame

/-- end_frame of scene i. -/
def scene_end (scenes : List Scene) (i : Nat) : Nat :=
  (scenes.getD i ⟨0, 0⟩).end_frame

/-- The cursor update at the top of the frame loop (processor.py lines
211-213): advance current_scene_index by one when the next scene exists
and its start_frame has been reached. -/
def step_cursor (scenes : List Scene) (idx frame_number : Nat) : Nat :=
  if idx < scenes.length - 1 ∧ scene_start scenes (idx + 1) ≤ frame_number then
    idx + 1
  else
    idx

/-- The value of current_scene_index used for frame n: the loop starts
with index 0 and frame 0, runs the update, uses the index, and increments
frame_number (processor.py lines 203-215). -/
def cursor_at (scenes : List Scene) : Nat → Nat
  | 0 => step_cursor scenes 0 0
  | n + 1 => step_cursor scenes (cursor_at scenes n) (n + 1)

/-- The scene-list shape assumed by the frame loop: non-empty, starting
at frame 0, each scene a non-empty half-open interval, contiguous, and
ending at total_frames. -/
def valid_scenes (scenes : List Scene) (total_frames : Nat) : Prop :=
  scenes ≠ [] ∧
  scene_start scenes 0 = 0 ∧
  (∀ i, i < scenes.length → scene_start scenes i < scene_end scenes i) ∧
  (∀ i, i < scenes.length - 1 → scene_start scenes (i + 1) = scene_end scenes i) ∧
  scene_end scenes (scenes.length - 1) = total_frames

instance (scenes : List Scene) (total : Nat) : Decidable (valid_scenes scenes total) := by
  unfold valid_scenes
  infer_instance

/-- Observable behaviour of one external ffmpeg subprocess: its exit code
and whether it left its output file on disk. -/
structure SubprocBehavior where
  exitCode : Int
  createsOutput : Bool
deriving Repr, DecidableEq

/-- The three paths process_video works with (processor.py lines 141-143).
In the source the two temporary names are derived from the destination by
appending distinct suffixes to the stem, so the three are pairwise
distinct; the embedding keeps them abstract. -/
structure Paths where
  output_video : String
  temp_video_output : String
  temp_audio_output : String
deriving Repr, DecidableEq

/-- All external inputs of one process_video run: the initial filesystem
(a set of paths), the detected scene list, the frame count of the source,
and the behaviour of the three ffmpeg subprocesses. -/
structure PVInput where
  initFs : Finset String
  scenes : List Scene
  num_frames : Nat
  encoder : SubprocBehavior
  audio_extract : SubprocBehavior
  merge : SubprocBehavior

/-- Trace events of a process_video run, in source order. -/
inductive Ev where
  | detect_scenes
  | analyze_scene (i : Nat)
  | spawn_encoder
  | decode_frame (n : Nat)
  | run_audio_extract
  | run_merge
deriving Repr, DecidableEq

/-- Result of a process_video run: the raised error or success, the event
trace, and the final filesystem. -/
structure PVOutcome where
  result : Except String Unit
  trace : List Ev
  fs : Finset String

/-- process_video (processor.py lines 126-304) at the level of its
filesystem effects, control flow and event order.  Lines 146-148 remove
any pre-existing files at the two temporary paths and the destination;
line 156 raises on an empty scene list before the resolution read, the
analysis loop, the encoder spawn and the frame loop; lines 257-258,
269-270 and 285-286 raise on a non-zero exit of the encoder, the audio
extraction and the merge, in that order, with no file removal on those
paths; lines 292-294 remove the two temporary files only after all three
subprocesses succeeded. -/
def process_video (P : Paths) (inp : PVInput) : PVOutcome :=
  let fs0 := ((inp.initFs.erase P.temp_video_output).erase
      P.temp_audio_output).erase P.output_video
  let tr1 := [Ev.detect_scenes]
  if inp.scenes.isEmpty then
    ⟨Except.error "No scenes detected in video", tr1, fs0⟩
  else
    let tr2 := tr1 ++ (List.range inp.scenes.length).map Ev.analyze_scene
    let tr3 := tr2 ++ [Ev.spawn_encoder] ++
      (List.range inp.num_frames).map Ev.decode_frame
    let fs1 := if inp.encoder.createsOutput then
        insert P.temp_video_output fs0 else fs0
    if inp.encoder.exitCode ≠ 0 then
      ⟨Except.error "FFmpeg frame processing failed", tr3, fs1⟩
    else
      let tr4 := tr3 ++ [Ev.run_audio_extract]
      let fs2 := if inp.audio_extract.createsOutput then
          insert P.temp_audio_output fs1 else fs1
      if inp.audio_extract.exitCode ≠ 0 then
        ⟨Except.error "Audio extraction failed", tr4, fs2⟩
      else
        let tr5 := tr4 ++ [Ev.run_merge]
        let fs3 := if inp.merge.createsOutput then
            insert P.output_video fs2 else fs2
        if inp.merge.exitCode ≠ 0 then
          ⟨Except.error "Final merge failed", tr5, fs3⟩
        else
          let fs4 := (fs3.erase P.temp_video_output).erase P.temp_audio_output
          ⟨Except.ok (), tr5, fs4⟩

/-- OUTPUT_WIDTH (processor.py lines 169-171): int(OUTPUT_HEIGHT * 0.5625)
rounded up to the next even number; the float product is exact. -/
def OUTPUT_WIDTH (output_height : Nat) : Nat :=
  let w := 9 * output_height / 16
  if w % 2 ≠ 0 then w + 1 else w

/-- A numpy slice bound over an axis of the given length: a negative
index counts from the end, then the bound is clamped into [0, length]. -/
def npClamp (length : Nat) (i : Int) : Nat :=
  min length (if i < 0 then ((length : Int) + i).toNat else i.toNat)

/-- cv2.resize at the level of shapes: src and the result are (rows,
cols), dsize is (width, height); it fails on an empty source or an empty
requested size. -/
def cv2_resize (src : Nat × Nat) (dsize : Nat × Nat) : Option (Nat × Nat) :=
  if src.1 = 0 ∨ src.2 = 0 ∨ dsize.1 = 0 ∨ dsize.2 = 0 then none
  else some (dsize.2, dsize.1)

/-- The per-frame compositor (processor.py lines 219-244) at the level of
array shapes, with OUTPUT_HEIGHT = original_height as set at line 168.
TRACK: crop to the crop box, then resize to the output size.  LETTERBOX:
bg_scale = OUTPUT_HEIGHT / original_height is exactly 1.0, so bg_width =
int(original_width * bg_scale) = original_width (rendered as exact
arithmetic); the background candidate is centre-cropped with numpy slice
clamping, blurred through a 4x downscale and upscale (the blur keeps the
shape of its input), and the foreground is scaled to scaled_height and
assigned into the centre rows, which numpy accepts only when the shapes
agree.

scaled_height is the value of int(original_height * scale_factor) with
scale_factor = OUTPUT_WIDTH / original_width computed in IEEE doubles at
lines 237-238.  The two float roundings can move the product across an
integer, so this value is not determined by exact arithmetic on the
shapes; the embedding therefore takes it as an input.  When
OUTPUT_WIDTH <= original_width it never exceeds original_height
(rounding is monotone and both 1.0 and original_height are exactly
representable), but it can be 0 - e.g. original_width 1372, height 49
gives int(49 * (28/1372)) = int(0.9999999999999999) = 0 - and
cv2.resize to a zero-height size raises, which the shape model renders
as none. -/
def composite_frame_dims (strategy : Strategy) (target_box : Box)
    (original_width original_height scaled_height : Nat) : Option (Nat × Nat) :=
  let OUTPUT_HEIGHT := original_height
  let OW := OUTPUT_WIDTH OUTPUT_HEIGHT
  match strategy with
  | Strategy.TRACK =>
      let cb := calculate_crop_box target_box (original_width : Int)
        (original_height : Int)
      let rows := npClamp original_height cb.2.2.2 - npClamp original_height cb.2.1
      let cols := npClamp original_width cb.2.2.1 - npClamp original_width cb.1
      cv2_resize (rows, cols) (OW, OUTPUT_HEIGHT)
  | Strategy.LETTERBOX =>
      let bg_width := original_width * OUTPUT_HEIGHT / original_height
      (cv2_resize (original_height, original_width) (bg_width, OUTPUT_HEIGHT)).bind
        fun bg =>
      let x_offset : Int := Int.fdiv ((bg_width : Int) - OW) 2
      let bg_cropped : Nat × Nat :=
        (bg.1, npClamp bg.2 (x_offset + OW) - npClamp bg.2 x_offset)
      (cv2_resize bg_cropped (OW / 4, OUTPUT_HEIGHT / 4)).bind fun small =>
      (cv2_resize small (OW, OUTPUT_HEIGHT)).bind fun blurred_bg =>
      (cv2_resize (original_height, original_width) (OW, scaled_height)).bind
        fun scaled =>
      let y_offset : Int := Int.fdiv ((OUTPUT_HEIGHT : Int) - scaled_height) 2
      if npClamp blurred_bg.1 (y_offset + scaled_height) -
            npClamp blurred_bg.1 y_offset = scaled.1 ∧
          blurred_bg.2 = scaled.2 then
        some blurred_bg
      else none

/-- Concrete two-subject scene whose enclosing person box has width
405 = 720 * 9 / 16: the tie case at frame height 720. -/
def tie_subjects : List Subject :=
  [⟨⟨0, 0, 200, 300⟩, none⟩, ⟨⟨100, 0, 405, 300⟩, none⟩]

/-- Concrete paths for the pipeline counterexample runs. -/
def cexPaths : Paths :=
  ⟨"out.mp4", "out_temp_video.mp4", "out_temp_audio.aac"⟩

/-- Concrete pipeline input whose encoder subprocess exits 2 after having
written a (partial) temporary video file. -/
def cexEncoderFail : PVInput :=
  ⟨∅, [⟨0, 10⟩], 10, ⟨2, true⟩, ⟨0, true⟩, ⟨0, true⟩⟩

/-- C5: decide_cropping_strategy maps the empty subject list to
(LETTERBOX, none), and a single subject to (TRACK, t) where t is the
face box when present and the person box otherwise. -/
theorem zero_or_one_subject_strategy (frame_height : Int) (s : Subject) :
    decide_cropping_strategy [] frame_height = (Strategy.LETTERBOX, none) ∧
    decide_cropping_strategy [s] frame_height
      = (Strategy.TRACK, some (s.face_box.getD s.person_box)) :=
  ⟨rfl, rfl⟩

/-- C8: for every subject list and frame height, the returned target box
is none exactly when the returned strategy is LETTERBOX. -/
theorem target_none_iff_letterbox (subjects : List Subject) (frame_height : Int) :
    (decide_cropping_strategy subjects frame_height).2 = none ↔
    (decide_cropping_strategy subjects frame_height).1 = Strategy.LETTERBOX := by
  match subjects with
  | [] => simp [decide_cropping_strategy]
  | [s] => simp [decide_cropping_strategy]
  | s1 :: s2 :: rest =>
      simp only [decide_cropping_strategy, List.map_cons, get_enclosing_box]
      split <;> simp

/-- C6: when the sample frame cannot be decoded (video unopenable or the
read fails), analyze_scene_content returns the empty list rather than
raising, and the strategy decided for that scene is LETTERBOX. -/
theorem unreadable_sample_falls_back_to_letterbox
    (cap_opened read_ok : Bool) (detections : List Subject) (frame_height : Int)
    (hfail : cap_opened = false ∨ read_ok = false) :
    analyze_scene_content cap_opened read_ok detections = [] ∧
    decide_cropping_strategy
      (analyze_scene_content cap_opened read_ok detections) frame_height
      = (Strategy.LETTERBOX, none) := by
  rcases hfail with h | h <;> subst h
  · simp [analyze_scene_content, decide_cropping_strategy]
  · cases cap_opened <;> simp [analyze_scene_content, decide_cropping_strategy]

/-- Witness for C6 at a concrete unopenable capture. -/
theorem unreadable_sample_falls_back_to_letterbox_witness :
    analyze_scene_content false true [⟨⟨0, 0, 1, 1⟩, none⟩] = [] ∧
    decide_cropping_strategy (analyze_scene_content false true [⟨⟨0, 0, 1, 1⟩, none⟩]) 720
      = (Strategy.LETTERBOX, none) :=
  unreadable_sample_falls_back_to_letterbox false true [⟨⟨0, 0, 1, 1⟩, none⟩] 720
    (Or.inl rfl)

/-- C1 is false as stated: at frame height 720 the enclosing person box
of tie_subjects has width 405 with 16 * 405 = 9 * 720 (the tie case), yet
decide_cropping_strategy returns (LETTERBOX, none), not TRACK with the
enclosing box: the source guards the TRACK branch with the strict
group_width < frame_height * 9/16, so the tie falls into LETTERBOX. -/
theorem group_tie_cex :
    get_enclosing_box (tie_subjects.map Subject.person_box) = some ⟨0, 0, 405, 300⟩ ∧
    16 * ((405 : Int) - 0) = 9 * 720 ∧
    decide_cropping_strategy tie_subjects 720 = (Strategy.LETTERBOX, none) ∧
    decide_cropping_strategy tie_subjects 720 ≠ (Strategy.TRACK, some ⟨0, 0, 405, 300⟩) :=
  ⟨by decide, by decide, by decide, by decide⟩

/-- C1 (amended): for at least two subjects whose enclosing person box
has width exactly frame_height * 9/16, decide_cropping_strategy returns
(LETTERBOX, none); the strict < guards the TRACK branch, so the tie
resolves to LETTERBOX, not TRACK. -/
theorem group_tie_letterbox (s1 s2 : Subject) (rest : List Subject)
    (frame_height : Int) (gb : Box)
    (hgb : get_enclosing_box ((s1 :: s2 :: rest).map Subject.person_box) = some gb)
    (htie : 16 * (gb.x2 - gb.x1) = 9 * frame_height) :
    decide_cropping_strategy (s1 :: s2 :: rest) frame_height
      = (Strategy.LETTERBOX, none) := by
  unfold decide_cropping_strategy
  dsimp only
  rw [hgb]
  dsimp only
  rw [if_neg (by omega)]

/-- Witness for the amended C1 at the concrete tie input. -/
theorem group_tie_letterbox_witness :
    decide_cropping_strategy tie_subjects 720 = (Strategy.LETTERBOX, none) :=
  group_tie_letterbox ⟨⟨0, 0, 200, 300⟩, none⟩ ⟨⟨100, 0, 405, 300⟩, none⟩ [] 720
    ⟨0, 0, 405, 300⟩ (by decide) (by decide)

/-- Unfolding of calculate_crop_box into its let-chain. -/
lemma crop_eval (t : Box) (fw fh : Int) :
    calculate_crop_box t fw fh =
      (let x1 := Int.tdiv (t.x1 + t.x2 - crop_width fh) 2
       let x2 := Int.tdiv (t.x1 + t.x2 + crop_width fh) 2
       let x1a := if x1 < 0 then 0 else x1
       let x2a := if x1 < 0 then crop_width fh else x2
       let x2b := if x2a > fw then fw else x2a
       let x1b := if x2a > fw then fw - crop_width fh else x1a
       (x1b, 0, x2b, fh)) := rfl

/-- Truncating division of an integer at most -2 by two is negative. -/
lemma tdiv_two_neg_of_le {a : Int} (h : a ≤ -2) : Int.tdiv a 2 < 0 := by
  have h1 : a = -(-a) := by omega
  rw [h1, Int.neg_tdiv]
  have h2 : 0 ≤ (-a : Int) := by omega
  rw [Int.tdiv_eq_ediv h2 (by norm_num)]
  omega

/-- Complete case analysis of the crop window arithmetic, over the
doubled centre c2 and the crop width cw.  When c2 = cw - 1 the argument
of the first int() cast is exactly -0.5, which truncation toward zero
sends to 0, skipping the left clamp and shrinking the window by one. -/
lemma crop_core (c2 cw fw fh : Int)
    (hcw : 1 ≤ cw) (hfw : cw ≤ fw) (hc : 0 ≤ c2) :
    ∃ a b : Int,
      (let x1 := Int.tdiv (c2 - cw) 2
       let x2 := Int.tdiv (c2 + cw) 2
       let x1a := if x1 < 0 then 0 else x1
       let x2a := if x1 < 0 then cw else x2
       let x2b := if x2a > fw then fw else x2a
       let x1b := if x2a > fw then fw - cw else x1a
       ((x1b, 0, x2b, fh) : Int × Int × Int × Int)) = (a, 0, b, fh) ∧
      0 ≤ a ∧ a ≤ b ∧ b ≤ fw ∧
      (c2 ≠ cw - 1 → b - a = cw) ∧
      (c2 = cw - 1 → a = 0 ∧ b = cw - 1) := by
  dsimp only
  by_cases hneg : Int.tdiv (c2 - cw) 2 < 0
  · simp only [if_pos hneg]
    have hout : ¬ (cw > fw) := by omega
    simp only [if_neg hout]
    refine ⟨0, cw, rfl, le_refl 0, by omega, hfw, fun _ => by omega, fun he => ?_⟩
    exfalso
    rw [he] at hneg
    have h1 : cw - 1 - cw = -1 := by omega
    rw [h1] at hneg
    exact absurd hneg (by decide)
  · by_cases hexc : c2 = cw - 1
    · have hx1 : Int.tdiv (c2 - cw) 2 = 0 := by
        rw [hexc]
        have h1 : cw - 1 - cw = -1 := by omega
        rw [h1]
        decide
      have hx2 : Int.tdiv (c2 + cw) 2 = cw - 1 := by
        rw [hexc]
        have h1 : cw - 1 + cw = -1 + cw * 2 := by ring
        rw [h1, Int.tdiv_eq_ediv (by omega) (by norm_num),
          Int.add_mul_ediv_right _ _ (by norm_num : (2:Int) ≠ 0)]
        omega
      simp only [hx1, hx2]
      have h0 : ¬ ((0 : Int) < 0) := by omega
      simp only [if_neg h0]
      have hout : ¬ (cw - 1 > fw) := by omega
      simp only [if_neg hout]
      exact ⟨0, cw - 1, rfl, le_refl 0, by omega, by omega,
        fun h => absurd hexc h, fun _ => ⟨rfl, rfl⟩⟩
    · have hge : 0 ≤ c2 - cw := by
        by_contra hlt
        have h1 : c2 - cw ≤ -2 := by omega
        exact hneg (tdiv_two_neg_of_le h1)
      have hx1 : Int.tdiv (c2 - cw) 2 = (c2 - cw) / 2 :=
        Int.tdiv_eq_ediv hge (by norm_num)
      have hx2 : Int.tdiv (c2 + cw) 2 = (c2 - cw) / 2 + cw := by
        have h1 : c2 + cw = (c2 - cw) + cw * 2 := by ring
        rw [h1, Int.tdiv_eq_ediv (by omega) (by norm_num),
          Int.add_mul_ediv_right _ _ (by norm_num : (2:Int) ≠ 0)]
      have hx1nn : 0 ≤ (c2 - cw) / 2 := Int.ediv_nonneg hge (by norm_num)
      simp only [hx1, hx2]
      have hlt0 : ¬ ((c2 - cw) / 2 < 0) := by omega
      simp only [if_neg hlt0]
      by_cases hr : (c2 - cw) / 2 + cw > fw
      · simp only [if_pos hr]
        exact ⟨fw - cw, fw, rfl, by omega, by omega, le_refl fw, fun _ => by omega,
          fun he => absurd he hexc⟩
      · simp only [if_neg hr]
        exact ⟨(c2 - cw) / 2, (c2 - cw) / 2 + cw, rfl, hx1nn, by omega, by omega,
          fun _ => by omega, fun he => absurd he hexc⟩

/-- crop_core transported to calculate_crop_box. -/
lemma crop_box_cases (t : Box) (fw fh : Int)
    (hcw : 1 ≤ crop_width fh) (hfw : crop_width fh ≤ fw)
    (hc : 0 ≤ t.x1 + t.x2) :
    ∃ a b : Int,
      calculate_crop_box t fw fh = (a, 0, b, fh) ∧ 0 ≤ a ∧ a ≤ b ∧ b ≤ fw ∧
      (t.x1 + t.x2 ≠ crop_width fh - 1 → b - a = crop_width fh) ∧
      (t.x1 + t.x2 = crop_width fh - 1 → a = 0 ∧ b = crop_width fh - 1) := by
  rw [crop_eval]
  exact crop_core (t.x1 + t.x2) (crop_width fh) fw fh hcw hfw hc

/-- C2 is false as stated: at frame_height 16 the claimed constant width
is round(16 * 9/16) = 9, but for the target box [2, 0, 6, 10] (centre
4.0) calculate_crop_box returns the window (0, 0, 8, 16) of width 8:
int(4.0 - 4.5) truncates -0.5 to 0, so the left clamp does not fire and
the window shrinks by one. -/
theorem crop_box_width_cex :
    calculate_crop_box ⟨2, 0, 6, 10⟩ 100 16 = (0, 0, 8, 16) ∧
    (8 : Int) - 0 ≠ 9 ∧
    round ((16 : ℚ) * (9 / 16)) = 9 :=
  ⟨by decide, by decide, by norm_num [round_eq]⟩

/-- C2 (amended): for a target box with non-negative doubled centre and
a frame at least as wide as crop_width = int(frame_height * 9/16) ≥ 1
(the horizontal-source regime), calculate_crop_box returns a window
(x1, 0, x2, frame_height) with 0 ≤ x1 ≤ x2 ≤ frame_width whose width
x2 - x1 equals crop_width - the floor, not the round, of
frame_height * 9/16 - clamped by shifting at both edges, except in the
single boundary case 2 * centre = crop_width - 1, where the int()
truncation toward zero skips the left clamp and the width is
crop_width - 1. -/
theorem crop_box_width_contract (t : Box) (fw fh : Int)
    (hcw : 1 ≤ crop_width fh) (hfw : crop_width fh ≤ fw)
    (hc : 0 ≤ t.x1 + t.x2) :
    ∃ a b : Int,
      calculate_crop_box t fw fh = (a, 0, b, fh) ∧ 0 ≤ a ∧ a ≤ b ∧ b ≤ fw ∧
      (t.x1 + t.x2 ≠ crop_width fh - 1 → b - a = crop_width fh) ∧
      (t.x1 + t.x2 = crop_width fh - 1 → a = 0 ∧ b = crop_width fh - 1) :=
  crop_box_cases t fw fh hcw hfw hc

/-- Witness for the amended C2 at a concrete 1280 x 720 frame. -/
theorem crop_box_width_contract_witness :
    ∃ a b : Int,
      calculate_crop_box ⟨100, 0, 200, 300⟩ 1280 720 = (a, 0, b, 720) ∧
      0 ≤ a ∧ a ≤ b ∧ b ≤ 1280 ∧
      ((100 : Int) + 200 ≠ crop_width 720 - 1 → b - a = crop_width 720) ∧
      ((100 : Int) + 200 = crop_width 720 - 1 → a = 0 ∧ b = crop_width 720 - 1) :=
  crop_box_width_contract ⟨100, 0, 200, 300⟩ 1280 720 (by decide) (by decide) (by decide)

/-- One unfolding step of the frame-loop cursor. -/
lemma cursor_at_succ (scenes : List Scene) (n : Nat) :
    cursor_at scenes (n + 1) = step_cursor scenes (cursor_at scenes n) (n + 1) := rfl

/-- For a valid scene list, start frames are monotone in the scene index. -/
lemma scene_start_le (scenes : List Scene) (total : Nat)
    (hv : valid_scenes scenes total) :
    ∀ j, j < scenes.length → ∀ i, i ≤ j → scene_start scenes i ≤ scene_start scenes j := by
  obtain ⟨hne, h0, hlt, hcontig, hlast⟩ := hv
  intro j
  induction j with
  | zero =>
      intro _ i hi
      interval_cases i
      exact le_refl _
  | succ m ih =>
      intro hm1 i hi
      rcases Nat.eq_or_lt_of_le hi with he | hlt2
      · rw [he]
      · have h1 : i ≤ m := by omega
        have h2 : m < scenes.length := by omega
        have h3 : scene_start scenes i ≤ scene_start scenes m := ih h2 i h1
        have h4 : scene_start scenes (m + 1) = scene_end scenes m := hcontig m (by omega)
        have h5 : scene_start scenes m < scene_end scenes m := hlt m h2
        omega

/-- Invariant of the frame loop: for every frame n below total, the
cursor names a real scene whose half-open interval contains n. -/
lemma cursor_inv (scenes : List Scene) (total : Nat)
    (hv : valid_scenes scenes total) :
    ∀ n, n < total →
      cursor_at scenes n < scenes.length ∧
      scene_start scenes (cursor_at scenes n) ≤ n ∧
      n < scene_end scenes (cursor_at scenes n) := by
  obtain ⟨hne, h0, hlt, hcontig, hlast⟩ := hv
  have hlen : 0 < scenes.length := List.length_pos.mpr hne
  intro n
  induction n with
  | zero =>
      intro _
      have hc0 : cursor_at scenes 0 = 0 := by
        unfold cursor_at step_cursor
        rw [if_neg]
        rintro ⟨hl, hs⟩
        have h1 := hcontig 0 hl
        have h2 := hlt 0 hlen
        omega
      rw [hc0]
      have h2 := hlt 0 hlen
      exact ⟨hlen, by omega, by omega⟩
  | succ n ih =>
      intro hn1
      obtain ⟨hc1, hc2, hc3⟩ := ih (by omega)
      rw [cursor_at_succ]
      unfold step_cursor
      by_cases hcond : cursor_at scenes n < scenes.length - 1 ∧
          scene_start scenes (cursor_at scenes n + 1) ≤ n + 1
      · rw [if_pos hcond]
        obtain ⟨hl, hs⟩ := hcond
        have h4 : scene_start scenes (cursor_at scenes n + 1)
            = scene_end scenes (cursor_at scenes n) := hcontig _ hl
        have h5 : scene_start scenes (cursor_at scenes n + 1)
            < scene_end scenes (cursor_at scenes n + 1) := hlt _ (by omega)
        exact ⟨by omega, hs, by omega⟩
      · rw [if_neg hcond]
        refine ⟨hc1, by omega, ?_⟩
        by_cases hl : cursor_at scenes n < scenes.length - 1
        · have hs : ¬ scene_start scenes (cursor_at scenes n + 1) ≤ n + 1 :=
            fun hs => hcond ⟨hl, hs⟩
          have h4 : scene_start scenes (cursor_at scenes n + 1)
              = scene_end scenes (cursor_at scenes n) := hcontig _ hl
          omega
        · have h6 : cursor_at scenes n = scenes.length - 1 := by omega
          rw [h6, hlast]
          omega

/-- C4: for every scene list that is ordered, non-overlapping and
contiguous over [0, total_frames), with frames consumed in increasing
order as the loop does, the forward-only cursor at each frame n names
exactly the scene whose half-open interval contains n, and it advances
by at most one scene per frame, never backward. -/
theorem cursor_assigns_frames_to_scenes (scenes : List Scene) (total n : Nat)
    (hv : valid_scenes scenes total) (hn : n < total) :
    (cursor_at scenes n < scenes.length ∧
     scene_start scenes (cursor_at scenes n) ≤ n ∧
     n < scene_end scenes (cursor_at scenes n)) ∧
    (∀ j, j < scenes.length → scene_start scenes j ≤ n → n < scene_end scenes j →
      j = cursor_at scenes n) ∧
    (cursor_at scenes (n + 1) = cursor_at scenes n ∨
     cursor_at scenes (n + 1) = cursor_at scenes n + 1) := by
  obtain ⟨hc1, hc2, hc3⟩ := cursor_inv scenes total hv n hn
  refine ⟨⟨hc1, hc2, hc3⟩, ?_, ?_⟩
  · intro j hj hj1 hj2
    obtain ⟨hne, h0, hlt, hcontig, hlast⟩ := hv
    by_contra hne2
    rcases Nat.lt_or_ge j (cursor_at scenes n) with hlt2 | hge
    · have h4 : scene_start scenes (j + 1) = scene_end scenes j := hcontig j (by omega)
      have h5 : scene_start scenes (j + 1) ≤ scene_start scenes (cursor_at scenes n) :=
        scene_start_le scenes total ⟨hne, h0, hlt, hcontig, hlast⟩
          (cursor_at scenes n) hc1 (j + 1) (by omega)
      omega
    · have hlt3 : cursor_at scenes n < j := by omega
      have h4 : scene_start scenes (cursor_at scenes n + 1)
          = scene_end scenes (cursor_at scenes n) := hcontig _ (by omega)
      have h5 : scene_start scenes (cursor_at scenes n + 1) ≤ scene_start scenes j :=
        scene_start_le scenes total ⟨hne, h0, hlt, hcontig, hlast⟩
          j hj (cursor_at scenes n + 1) (by omega)
      omega
  · rw [cursor_at_succ]
    unfold step_cursor
    split
    · right; rfl
    · left; rfl

/-- Witness for C4 on the concrete scene list [0,2), [2,5) at frame 3. -/
theorem cursor_assigns_frames_to_scenes_witness :
    (cursor_at [⟨0, 2⟩, ⟨2, 5⟩] 3 < ([⟨0, 2⟩, ⟨2, 5⟩] : List Scene).length ∧
     scene_start [⟨0, 2⟩, ⟨2, 5⟩] (cursor_at [⟨0, 2⟩, ⟨2, 5⟩] 3) ≤ 3 ∧
     3 < scene_end [⟨0, 2⟩, ⟨2, 5⟩] (cursor_at [⟨0, 2⟩, ⟨2, 5⟩] 3)) ∧
    (∀ j, j < ([⟨0, 2⟩, ⟨2, 5⟩] : List Scene).length →
      scene_start [⟨0, 2⟩, ⟨2, 5⟩] j ≤ 3 → 3 < scene_end [⟨0, 2⟩, ⟨2, 5⟩] j →
      j = cursor_at [⟨0, 2⟩, ⟨2, 5⟩] 3) ∧
    (cursor_at [⟨0, 2⟩, ⟨2, 5⟩] 4 = cursor_at [⟨0, 2⟩, ⟨2, 5⟩] 3 ∨
     cursor_at [⟨0, 2⟩, ⟨2, 5⟩] 4 = cursor_at [⟨0, 2⟩, ⟨2, 5⟩] 3 + 1) :=
  cursor_assigns_frames_to_scenes [⟨0, 2⟩, ⟨2, 5⟩] 5 3 (by decide) (by decide)

/-- C9: with zero detected scenes, process_video raises the fatal input
error, no encoder process is spawned and no frame of the frame loop is
decoded. -/
theorem zero_scenes_fails_before_decode (P : Paths) (inp : PVInput)
    (hs : inp.scenes = []) :
    (process_video P inp).result = Except.error "No scenes detected in video" ∧
    Ev.spawn_encoder ∉ (process_video P inp).trace ∧
    (∀ n, Ev.decode_frame n ∉ (process_video P inp).trace) := by
  simp [process_video, hs]

/-- Witness for C9 at a concrete zero-scene input. -/
theorem zero_scenes_fails_before_decode_witness :
    (process_video cexPaths ⟨{"out.mp4"}, [], 0, ⟨0, true⟩, ⟨0, true⟩, ⟨0, true⟩⟩).result
      = Except.error "No scenes detected in video" ∧
    Ev.spawn_encoder ∉
      (process_video cexPaths ⟨{"out.mp4"}, [], 0, ⟨0, true⟩, ⟨0, true⟩, ⟨0, true⟩⟩).trace ∧
    (∀ n, Ev.decode_frame n ∉
      (process_video cexPaths ⟨{"out.mp4"}, [], 0, ⟨0, true⟩, ⟨0, true⟩, ⟨0, true⟩⟩).trace) :=
  zero_scenes_fails_before_decode cexPaths _ rfl

/-- C10: process_video deletes any pre-existing files at the destination
path and at both temporary paths before doing anything else, so on a run
that fails immediately (zero scenes) and produces nothing, the final
filesystem is exactly the initial one minus those three paths, and a
file that was present at the destination is gone. -/
theorem invoking_deletes_preexisting_files (P : Paths) (inp : PVInput)
    (hs : inp.scenes = []) :
    (process_video P inp).fs =
      ((inp.initFs.erase P.temp_video_output).erase P.temp_audio_output).erase
        P.output_video ∧
    P.output_video ∉ (process_video P inp).fs ∧
    P.temp_video_output ∉ (process_video P inp).fs ∧
    P.temp_audio_output ∉ (process_video P inp).fs := by
  have hfs : (process_video P inp).fs =
      ((inp.initFs.erase P.temp_video_output).erase P.temp_audio_output).erase
        P.output_video := by
    simp [process_video, hs]
  refine ⟨hfs, ?_, ?_, ?_⟩
  · rw [hfs]; exact Finset.not_mem_erase _ _
  · rw [hfs]
    intro h
    exact Finset.not_mem_erase _ _
      (Finset.mem_of_mem_erase (Finset.mem_of_mem_erase h))
  · rw [hfs]
    intro h
    exact Finset.not_mem_erase _ _ (Finset.mem_of_mem_erase h)

/-- Witness for C10: a destination file that already exists is removed
by the run even though the run fails at the zero-scene check. -/
theorem invoking_deletes_preexisting_files_witness :
    (process_video cexPaths ⟨{"out.mp4", "keep.txt"}, [], 0, ⟨0, true⟩, ⟨0, true⟩, ⟨0, true⟩⟩).fs =
      ((({"out.mp4", "keep.txt"} : Finset String).erase "out_temp_video.mp4").erase
        "out_temp_audio.aac").erase "out.mp4" ∧
    "out.mp4" ∉
      (process_video cexPaths ⟨{"out.mp4", "keep.txt"}, [], 0, ⟨0, true⟩, ⟨0, true⟩, ⟨0, true⟩⟩).fs ∧
    "out_temp_video.mp4" ∉
      (process_video cexPaths ⟨{"out.mp4", "keep.txt"}, [], 0, ⟨0, true⟩, ⟨0, true⟩, ⟨0, true⟩⟩).fs ∧
    "out_temp_audio.aac" ∉
      (process_video cexPaths ⟨{"out.mp4", "keep.txt"}, [], 0, ⟨0, true⟩, ⟨0, true⟩, ⟨0, true⟩⟩).fs :=
  invoking_deletes_preexisting_files cexPaths _ rfl

/-- Evaluation of process_video when the encoder exits non-zero. -/
lemma process_video_encoder_fail (P : Paths) (inp : PVInput)
    (hne : inp.scenes.isEmpty = false) (henc : inp.encoder.exitCode ≠ 0) :
    process_video P inp =
      ⟨Except.error "FFmpeg frame processing failed",
       [Ev.detect_scenes] ++ (List.range inp.scenes.length).map Ev.analyze_scene ++
         [Ev.spawn_encoder] ++ (List.range inp.num_frames).map Ev.decode_frame,
       (if inp.encoder.createsOutput then
          insert P.temp_video_output
            (((inp.initFs.erase P.temp_video_output).erase P.temp_audio_output).erase
              P.output_video)
        else
          ((inp.initFs.erase P.temp_video_output).erase P.temp_audio_output).erase
            P.output_video)⟩ := by
  unfold process_video
  rw [hne]
  dsimp only
  rw [if_pos henc]
  simp [List.append_assoc]

/-- Evaluation of process_video when the encoder succeeds and the audio
extraction exits non-zero. -/
lemma process_video_audio_fail (P : Paths) (inp : PVInput)
    (hne : inp.scenes.isEmpty = false) (henc : inp.encoder.exitCode = 0)
    (haud : inp.audio_extract.exitCode ≠ 0) :
    process_video P inp =
      ⟨Except.error "Audio extraction failed",
       [Ev.detect_scenes] ++ (List.range inp.scenes.length).map Ev.analyze_scene ++
         [Ev.spawn_encoder] ++ (List.range inp.num_frames).map Ev.decode_frame ++
         [Ev.run_audio_extract],
       (if inp.audio_extract.createsOutput then
          insert P.temp_audio_output
            (if inp.encoder.createsOutput then
              insert P.temp_video_output
                (((inp.initFs.erase P.temp_video_output).erase P.temp_audio_output).erase
                  P.output_video)
            else
              ((inp.initFs.erase P.temp_video_output).erase P.temp_audio_output).erase
                P.output_video)
        else
          (if inp.encoder.createsOutput then
            insert P.temp_video_output
              (((inp.initFs.erase P.temp_video_output).erase P.temp_audio_output).erase
                P.output_video)
          else
            ((inp.initFs.erase P.temp_video_output).erase P.temp_audio_output).erase
              P.output_video))⟩ := by
  unfold process_video
  rw [hne]
  dsimp only
  rw [if_neg (not_not_intro henc), if_pos haud]
  simp [List.append_assoc]

/-- The destination path is absent from the post-cleanup filesystem. -/
lemma out_not_mem_fs0 (P : Paths) (inp : PVInput) :
    P.output_video ∉
      ((inp.initFs.erase P.temp_video_output).erase P.temp_audio_output).erase
        P.output_video :=
  Finset.not_mem_erase _ _

/-- C3 is false as stated: when the encoder exits 2 after writing its
(partial) temporary video file, process_video raises, but the temporary
video artifact is left on disk - the temp-file cleanup of lines 292-294
runs only on the success path. -/
theorem fatal_error_leaves_temp_cex :
    (∃ e, (process_video cexPaths cexEncoderFail).result = Except.error e) ∧
    "out_temp_video.mp4" ∈ (process_video cexPaths cexEncoderFail).fs :=
  ⟨⟨"FFmpeg frame processing failed", rfl⟩, by decide⟩

/-- C3 (amended): on a fatal encoder or audio-extraction error,
process_video raises the corresponding error and performs no cleanup:
temporary artifacts created before the failure remain on disk, while no
file exists at the destination path, since only the final merge stage
can create the destination (a failing merge may leave a partial
destination file behind). -/
theorem fatal_error_no_cleanup (P : Paths) (inp : PVInput)
    (hs : inp.scenes ≠ [])
    (h1 : P.output_video ≠ P.temp_video_output)
    (h2 : P.output_video ≠ P.temp_audio_output) :
    (inp.encoder.exitCode ≠ 0 →
      (process_video P inp).result = Except.error "FFmpeg frame processing failed" ∧
      (inp.encoder.createsOutput = true →
        P.temp_video_output ∈ (process_video P inp).fs) ∧
      P.output_video ∉ (process_video P inp).fs) ∧
    (inp.encoder.exitCode = 0 → inp.audio_extract.exitCode ≠ 0 →
      (process_video P inp).result = Except.error "Audio extraction failed" ∧
      (inp.encoder.createsOutput = true →
        P.temp_video_output ∈ (process_video P inp).fs) ∧
      (inp.audio_extract.createsOutput = true →
        P.temp_audio_output ∈ (process_video P inp).fs) ∧
      P.output_video ∉ (process_video P inp).fs) := by
  have hne : inp.scenes.isEmpty = false := by
    simp [List.isEmpty_iff, hs]
  constructor
  · intro henc
    rw [process_video_encoder_fail P inp hne henc]
    refine ⟨rfl, ?_, ?_⟩
    · intro hco
      simp only [hco, if_true]
      exact Finset.mem_insert_self _ _
    · by_cases hco : inp.encoder.createsOutput
      · simp only [hco, if_true]
        intro h
        rcases Finset.mem_insert.mp h with h | h
        · exact h1 h
        · exact out_not_mem_fs0 P inp h
      · simp only [hco, if_false]
        exact out_not_mem_fs0 P inp
  · intro henc haud
    rw [process_video_audio_fail P inp hne henc haud]
    have hmemtv : inp.encoder.createsOutput = true →
        P.temp_video_output ∈
          (if inp.encoder.createsOutput then
            insert P.temp_video_output
              (((inp.initFs.erase P.temp_video_output).erase P.temp_audio_output).erase
                P.output_video)
          else
            ((inp.initFs.erase P.temp_video_output).erase P.temp_audio_output).erase
              P.output_video) := by
      intro hco
      simp only [hco, if_true]
      exact Finset.mem_insert_self _ _
    have houtfs1 : P.output_video ∉
        (if inp.encoder.createsOutput then
          insert P.temp_video_output
            (((inp.initFs.erase P.temp_video_output).erase P.temp_audio_output).erase
              P.output_video)
        else
          ((inp.initFs.erase P.temp_video_output).erase P.temp_audio_output).erase
            P.output_video) := by
      by_cases hco : inp.encoder.createsOutput
      · simp only [hco, if_true]
        intro h
        rcases Finset.mem_insert.mp h with h | h
        · exact h1 h
        · exact out_not_mem_fs0 P inp h
      · simp only [hco, if_false]
        exact out_not_mem_fs0 P inp
    refine ⟨rfl, ?_, ?_, ?_⟩
    · intro hco
      by_cases hca : inp.audio_extract.createsOutput
      · simp only [hca, if_true]
        exact Finset.mem_insert_of_mem (hmemtv hco)
      · simp only [hca, if_false]
        exact hmemtv hco
    · intro hca
      simp only [hca, if_true]
      exact Finset.mem_insert_self _ _
    · by_cases hca : inp.audio_extract.createsOutput
      · simp only [hca, if_true]
        intro h
        rcases Finset.mem_insert.mp h with h | h
        · exact h2 h
        · exact houtfs1 h
      · simp only [hca, if_false]
        exact houtfs1

/-- Witness for the amended C3 at the concrete encoder-failure run. -/
theorem fatal_error_no_cleanup_witness :
    ((cexEncoderFail.encoder.exitCode ≠ 0 →
      (process_video cexPaths cexEncoderFail).result
        = Except.error "FFmpeg frame processing failed" ∧
      (cexEncoderFail.encoder.createsOutput = true →
        cexPaths.temp_video_output ∈ (process_video cexPaths cexEncoderFail).fs) ∧
      cexPaths.output_video ∉ (process_video cexPaths cexEncoderFail).fs) ∧
    (cexEncoderFail.encoder.exitCode = 0 → cexEncoderFail.audio_extract.exitCode ≠ 0 →
      (process_video cexPaths cexEncoderFail).result = Except.error "Audio extraction failed" ∧
      (cexEncoderFail.encoder.createsOutput = true →
        cexPaths.temp_video_output ∈ (process_video cexPaths cexEncoderFail).fs) ∧
      (cexEncoderFail.audio_extract.createsOutput = true →
        cexPaths.temp_audio_output ∈ (process_video cexPaths cexEncoderFail).fs) ∧
      cexPaths.output_video ∉ (process_video cexPaths cexEncoderFail).fs)) :=
  fatal_error_no_cleanup cexPaths cexEncoderFail (by decide) (by decide) (by decide)

/-- OUTPUT_WIDTH is always even. -/
lemma OUTPUT_WIDTH_even (h : Nat) : OUTPUT_WIDTH h % 2 = 0 := by
  unfold OUTPUT_WIDTH
  dsimp only
  split <;> omega

/-- OUTPUT_WIDTH never exceeds the height it is derived from. -/
lemma OUTPUT_WIDTH_le (h : Nat) (hh : 1 ≤ h) : OUTPUT_WIDTH h ≤ h := by
  unfold OUTPUT_WIDTH
  dsimp only
  have h1 : 9 * h / 16 * 16 ≤ 9 * h := Nat.div_mul_le_self _ _
  split <;> omega

/-- For heights of at least 6, OUTPUT_WIDTH is at least 4, so the 4x
blur downscale target is non-empty. -/
lemma OUTPUT_WIDTH_ge (h : Nat) (hh : 6 ≤ h) : 4 ≤ OUTPUT_WIDTH h := by
  unfold OUTPUT_WIDTH
  dsimp only
  have h1 : 3 ≤ 9 * h / 16 := by
    have h2 : (54 : Nat) / 16 ≤ 9 * h / 16 := Nat.div_le_div_right (by omega)
    omega
  split <;> omega

/-- OUTPUT_WIDTH is bounded below by the un-evened width. -/
lemma OUTPUT_WIDTH_lb (h : Nat) : 9 * h / 16 ≤ OUTPUT_WIDTH h := by
  unfold OUTPUT_WIDTH
  dsimp only
  split <;> omega

/-- crop_width at a natural height is the natural floor division. -/
lemma crop_width_natCast (h : Nat) :
    crop_width (h : Int) = ((9 * h : Nat) / 16 : Nat) := by
  unfold crop_width
  rw [show ((9 : Int) * (h : Int)) = ((9 * h : Nat) : Int) by push_cast; ring]
  rw [Int.tdiv_eq_ediv (by positivity) (by norm_num)]
  omega

/-- npClamp on an in-range non-negative index is that index. -/
lemma npClamp_eval (len : Nat) (i : Int) (h0 : 0 ≤ i) (hle : i ≤ (len : Int)) :
    npClamp len i = i.toNat := by
  unfold npClamp
  rw [if_neg (by omega)]
  have h1 : i.toNat ≤ len := Int.toNat_le.mpr hle
  omega

/-- C7 is false as stated: 1372 x 49 is a horizontal source frame
(width at least height) and 49 * OUTPUT_WIDTH 49 = 49 * 28 = 1372, but
in IEEE doubles lines 237-238 compute scale_factor = 28/1372 and
scaled_height = int(49 * (28/1372)) = int(0.9999999999999999) = 0, so
cv2.resize(frame, (28, 0)) raises and the compositor yields no output
frame at all under LETTERBOX, rather than a 28 x 49 one. -/
theorem composite_crash_cex :
    49 * OUTPUT_WIDTH 49 = 1372 ∧
    composite_frame_dims Strategy.LETTERBOX ⟨0, 0, 1, 1⟩ 1372 49 0 = none ∧
    composite_frame_dims Strategy.LETTERBOX ⟨0, 0, 1, 1⟩ 1372 49 0
      ≠ some (49, OUTPUT_WIDTH 49) :=
  ⟨by decide, by decide, by decide⟩

/-- C7 (amended): for a horizontal source frame (width at least height,
height at least 6) and a target box with non-negative coordinates,
whenever the IEEE-computed foreground height scaled_height is at least 1
- cv2.resize raises and no frame is produced when it is 0, which happens
only for degenerate frames about as wide as height * OUTPUT_WIDTH - and
at most the source height (which always holds), the compositor produces
a frame of exactly OUTPUT_HEIGHT x OUTPUT_WIDTH pixels under both
strategies, with OUTPUT_WIDTH even and OUTPUT_HEIGHT equal to the source
height. -/
theorem composite_output_dims (strategy : Strategy) (target_box : Box)
    (w h sh : Nat) (hh : 6 ≤ h) (hwh : h ≤ w)
    (hsh1 : 1 ≤ sh) (hsh2 : sh ≤ h)
    (htb : 0 ≤ target_box.x1 + target_box.x2) :
    composite_frame_dims strategy target_box w h sh = some (h, OUTPUT_WIDTH h) ∧
    OUTPUT_WIDTH h % 2 = 0 := by
  have how4 : 4 ≤ OUTPUT_WIDTH h := OUTPUT_WIDTH_ge h hh
  have howh : OUTPUT_WIDTH h ≤ h := OUTPUT_WIDTH_le h (by omega)
  refine ⟨?_, OUTPUT_WIDTH_even h⟩
  cases strategy with
  | TRACK =>
      have hcw3 : 3 ≤ crop_width (h : Int) := by
        rw [crop_width_natCast]
        have h2 : (54 : Nat) / 16 ≤ 9 * h / 16 := Nat.div_le_div_right (by omega)
        omega
      have hcwle : crop_width (h : Int) ≤ (w : Int) := by
        rw [crop_width_natCast]
        have h1 : 9 * h / 16 ≤ OUTPUT_WIDTH h := OUTPUT_WIDTH_lb h
        have h2 : (9 * h / 16 : Nat) ≤ w := by omega
        exact_mod_cast h2
      obtain ⟨a, b, hcb, ha, hab, hbfw, hwidth, hexc⟩ :=
        crop_box_cases target_box (w : Int) (h : Int) (by omega) hcwle htb
      have hba : 1 ≤ b - a := by
        by_cases he : target_box.x1 + target_box.x2 = crop_width (h : Int) - 1
        · obtain ⟨ha0, hb0⟩ := hexc he
          omega
        · have := hwidth he
          omega
      unfold composite_frame_dims
      dsimp only
      rw [hcb]
      dsimp only
      have hr1 : npClamp h ((h : Nat) : Int) = h := by
        rw [npClamp_eval h _ (by omega) (by omega)]
        omega
      have hr2 : npClamp h 0 = 0 := by
        rw [npClamp_eval h 0 (by omega) (by omega)]
        rfl
      have hr3 : npClamp w b = b.toNat := npClamp_eval w b (by omega) (by omega)
      have hr4 : npClamp w a = a.toNat := npClamp_eval w a (by omega) (by omega)
      rw [hr1, hr2, hr3, hr4]
      unfold cv2_resize
      rw [if_neg (by omega)]
  | LETTERBOX =>
      unfold composite_frame_dims
      dsimp only
      have hbgw : w * h / h = w := Nat.mul_div_cancel w (by omega)
      rw [hbgw]
      have hres1 : cv2_resize (h, w) (w, h) = some (h, w) := by
        unfold cv2_resize
        rw [if_neg (by omega)]
      rw [hres1]
      dsimp only [Option.bind]
      rw [Int.fdiv_eq_ediv _ (by norm_num)]
      have hxo0 : 0 ≤ ((w : Int) - (OUTPUT_WIDTH h : Int)) / 2 :=
        Int.ediv_nonneg (by omega) (by norm_num)
      have hxole : ((w : Int) - (OUTPUT_WIDTH h : Int)) / 2 + (OUTPUT_WIDTH h : Int)
          ≤ (w : Int) := by omega
      have hn1 : npClamp w (((w : Int) - (OUTPUT_WIDTH h : Int)) / 2 + (OUTPUT_WIDTH h : Int))
          = (((w : Int) - (OUTPUT_WIDTH h : Int)) / 2 + (OUTPUT_WIDTH h : Int)).toNat :=
        npClamp_eval _ _ (by omega) (by omega)
      have hn2 : npClamp w (((w : Int) - (OUTPUT_WIDTH h : Int)) / 2)
          = (((w : Int) - (OUTPUT_WIDTH h : Int)) / 2).toNat :=
        npClamp_eval _ _ (by omega) (by omega)
      rw [hn1, hn2]
      have hcols : (((w : Int) - (OUTPUT_WIDTH h : Int)) / 2 + (OUTPUT_WIDTH h : Int)).toNat
          - (((w : Int) - (OUTPUT_WIDTH h : Int)) / 2).toNat = OUTPUT_WIDTH h := by omega
      rw [hcols]
      have hres2 : cv2_resize (h, OUTPUT_WIDTH h) (OUTPUT_WIDTH h / 4, h / 4)
          = some (h / 4, OUTPUT_WIDTH h / 4) := by
        unfold cv2_resize
        rw [if_neg (by omega)]
      rw [hres2]
      dsimp only [Option.bind]
      have hres3 : cv2_resize (h / 4, OUTPUT_WIDTH h / 4) (OUTPUT_WIDTH h, h)
          = some (h, OUTPUT_WIDTH h) := by
        unfold cv2_resize
        rw [if_neg (by omega)]
      rw [hres3]
      dsimp only [Option.bind]
      have hres4 : cv2_resize (h, w) (OUTPUT_WIDTH h, sh)
          = some (sh, OUTPUT_WIDTH h) := by
        unfold cv2_resize
        rw [if_neg (by omega)]
      rw [hres4]
      dsimp only [Option.bind]
      rw [Int.fdiv_eq_ediv _ (by norm_num)]
      have hyo0 : 0 ≤ ((h : Int) - (sh : Nat)) / 2 :=
        Int.ediv_nonneg (by omega) (by norm_num)
      have hyole : ((h : Int) - (sh : Nat)) / 2
          + (sh : Nat) ≤ (h : Int) := by omega
      have hm1 : npClamp h (((h : Int) - (sh : Nat)) / 2
          + (sh : Nat))
          = (((h : Int) - (sh : Nat)) / 2
            + (sh : Nat)).toNat :=
        npClamp_eval _ _ (by omega) (by omega)
      have hm2 : npClamp h (((h : Int) - (sh : Nat)) / 2)
          = (((h : Int) - (sh : Nat)) / 2).toNat :=
        npClamp_eval _ _ (by omega) (by omega)
      rw [hm1, hm2]
      rw [if_pos (by constructor <;> omega)]

/-- Witness for the amended C7 at a 1280 x 720 frame under both
strategies; 228 is the IEEE-computed int(720 * (406/1280)). -/
theorem composite_output_dims_witness :
    (composite_frame_dims Strategy.TRACK ⟨100, 0, 300, 200⟩ 1280 720 228
        = some (720, OUTPUT_WIDTH 720) ∧ OUTPUT_WIDTH 720 % 2 = 0) ∧
    (composite_frame_dims Strategy.LETTERBOX ⟨100, 0, 300, 200⟩ 1280 720 228
        = some (720, OUTPUT_WIDTH 720) ∧ OUTPUT_WIDTH 720 % 2 = 0) :=
  ⟨composite_output_dims Strategy.TRACK ⟨100, 0, 300, 200⟩ 1280 720 228
      (by decide) (by decide) (by decide) (by decide) (by decide),
   composite_output_dims Strategy.LETTERBOX ⟨100, 0, 300, 200⟩ 1280 720 228
      (by decide) (by decide) (by decide) (by decide) (by decide)⟩

end Autocrop
